import Mathlib

/-!
Shallow embedding of `drivers/regulator/multi-regulator.c`, the multi-input
regulator driver.  The sequencer state mirrors `struct multi_regulator_data`;
the three regulator operations (`multi_regulator_enable`,
`multi_regulator_disable`, `multi_regulator_is_enabled`) are modelled as pure
functions from the state and an environment of collaborator results to the
updated state, the list of collaborator requests issued (the trace), and the
C return code.  Machine arithmetic on the 32-bit delay fields is modelled
with explicit reduction modulo `2 ^ 32` where the C code multiplies in
`unsigned int`.
-/

namespace MultiReg

/-- One observable request issued to a collaborator.  `set_voltage`,
`enable` and `disable` record the supply index, whether the stored handle
`data->regulators[i]` is non-NULL, and (for `set_voltage`) the requested
window; `sleep lo hi` records a `usleep_range(lo, hi)` call. -/
inductive Event : Type
  | set_voltage (i : Nat) (handle : Bool) (minU maxU : Nat)
  | enable (i : Nat) (handle : Bool)
  | disable (i : Nat) (handle : Bool)
  | sleep (lo hi : Nat)
deriving DecidableEq

/-- Mirror of `struct multi_regulator_data`.  The four parallel `unsigned
int` arrays and the `struct regulator **regulators` array are modelled as
functions from the index; `regulators i = false` models a NULL handle (a
supply whose resolution failed at probe time). -/
structure MultiRegulatorData : Type where
  regulators : Nat → Bool
  name : String
  min_uV : Nat → Nat
  max_uV : Nat → Nat
  pon_delay_us : Nat → Nat
  poff_delay_us : Nat → Nat
  count : Nat
  enabled : Bool

/-- Results the external collaborator calls return at each index:
`regulator_set_voltage`, `regulator_enable` and `regulator_disable` each
yield an `int` return code (0 = success). -/
structure Env : Type where
  set_voltage_rc : Nat → Int
  enable_rc : Nat → Int
  disable_rc : Nat → Int

/-- `2 ^ 32`, the modulus of C `unsigned int` arithmetic. -/
def U32 : Nat := 2 ^ 32

/-- The C test `data->min_uV[i] || data->max_uV[i]` guarding the
set-voltage request. -/
def gated (data : MultiRegulatorData) (i : Nat) : Bool :=
  data.min_uV i != 0 || data.max_uV i != 0

/-- The set-voltage request issued for index `i` (empty when not gated). -/
def sv_events (data : MultiRegulatorData) (i : Nat) : List Event :=
  if gated data i then
    [Event.set_voltage i (data.regulators i) (data.min_uV i) (data.max_uV i)]
  else []

/-- The `usleep_range(pon, 2 * pon)` request after a successful enable at
index `i`; the upper bound is computed in `unsigned int`, hence the
reduction modulo `2 ^ 32`.  Empty when the delay is zero. -/
def pon_sleep (data : MultiRegulatorData) (i : Nat) : List Event :=
  if data.pon_delay_us i != 0 then
    [Event.sleep (data.pon_delay_us i) (2 * data.pon_delay_us i % U32)]
  else []

/-- The `usleep_range(poff, 2 * poff)` request after the disable request at
index `i`. -/
def poff_sleep (data : MultiRegulatorData) (i : Nat) : List Event :=
  if data.poff_delay_us i != 0 then
    [Event.sleep (data.poff_delay_us i) (2 * data.poff_delay_us i % U32)]
  else []

/-- The loop body of `multi_regulator_enable` from index `i`, with `fuel`
iterations remaining (`fuel = data.count - i` at each call).  Returns the
trace of requests issued and the `int` the function returns once the loop
is left (0 on completion, `-EINVAL = -22` on the two early-return failure
paths). -/
def enable_loop (data : MultiRegulatorData) (env : Env) : Nat → Nat → List Event × Int
  | _, 0 => ([], 0)
  | i, fuel + 1 =>
    if gated data i && (env.set_voltage_rc i != 0) then
      (sv_events data i, -22)
    else if env.enable_rc i != 0 then
      (sv_events data i ++ [Event.enable i (data.regulators i)], -22)
    else
      let rest := enable_loop data env (i + 1) fuel
      (sv_events data i ++ [Event.enable i (data.regulators i)] ++ pon_sleep data i ++ rest.1,
       rest.2)

/-- The requests one fully successful iteration of the enable loop issues. -/
def ok_step_events (data : MultiRegulatorData) (i : Nat) : List Event :=
  sv_events data i ++ [Event.enable i (data.regulators i)] ++ pon_sleep data i

/-- The requests the failing iteration of the enable loop issues. -/
def fail_events (data : MultiRegulatorData) (env : Env) (i : Nat) : List Event :=
  if gated data i && (env.set_voltage_rc i != 0) then sv_events data i
  else sv_events data i ++ [Event.enable i (data.regulators i)]

/-- `multi_regulator_enable`: redundant-call check, the loop, and
`data->enabled = true` only after the loop completes. -/
def multi_regulator_enable (data : MultiRegulatorData) (env : Env) :
    MultiRegulatorData × List Event × Int :=
  if data.enabled then
    (data, [], 0)
  else
    let r := enable_loop data env 0 data.count
    if r.2 = 0 then ({ data with enabled := true }, r.1, 0) else (data, r.1, r.2)

/-- The loop body of `multi_regulator_disable` from index `i` with `fuel`
iterations remaining.  The `regulator_disable` return code is only logged:
it affects neither control flow nor the trace, so the loop does not consult
the environment. -/
def disable_loop (data : MultiRegulatorData) : Nat → Nat → List Event
  | _, 0 => []
  | i, fuel + 1 =>
    Event.disable i (data.regulators i) :: (poff_sleep data i ++ disable_loop data (i + 1) fuel)

/-- `multi_regulator_disable`: redundant-call check, best-effort loop,
`data->enabled = false` and `return 0` unconditionally afterwards. -/
def multi_regulator_disable (data : MultiRegulatorData) (_env : Env) :
    MultiRegulatorData × List Event × Int :=
  if !data.enabled then
    (data, [], 0)
  else
    ({ data with enabled := false }, disable_loop data 0 data.count, 0)

/-- `multi_regulator_is_enabled`: `return (data ? data->enabled : 0)`. -/
def multi_regulator_is_enabled (data : Option MultiRegulatorData) : Int :=
  match data with
  | some d => if d.enabled then 1 else 0
  | none => 0

/-- Iteration `i` of the enable loop succeeds: the set-voltage request (when
gated) and the enable request both return 0. -/
def step_ok (data : MultiRegulatorData) (env : Env) (i : Nat) : Prop :=
  (gated data i = false ∨ env.set_voltage_rc i = 0) ∧ env.enable_rc i = 0

/-- Iteration `i` of the enable loop fails: the gated set-voltage request
returns nonzero, or the enable request returns nonzero. -/
def step_fails (data : MultiRegulatorData) (env : Env) (i : Nat) : Prop :=
  (gated data i = true ∧ env.set_voltage_rc i ≠ 0) ∨ env.enable_rc i ≠ 0

instance (data : MultiRegulatorData) (env : Env) (i : Nat) :
    Decidable (step_ok data env i) := by
  unfold step_ok
  infer_instance

instance (data : MultiRegulatorData) (env : Env) (i : Nat) :
    Decidable (step_fails data env i) := by
  unfold step_fails
  infer_instance

/-- Supply index of an enable request. -/
def en_idx : Event → Option Nat
  | Event.enable i _ => some i
  | _ => none

/-- Supply index of a set-voltage request. -/
def sv_idx : Event → Option Nat
  | Event.set_voltage i _ _ _ => some i
  | _ => none

/-- Supply index of a disable request. -/
def dis_idx : Event → Option Nat
  | Event.disable i _ => some i
  | _ => none

/-- Collaborator environment in which every request succeeds. -/
def envOk : Env where
  set_voltage_rc := fun _ => 0
  enable_rc := fun _ => 0
  disable_rc := fun _ => 0

/-- Collaborator environment whose enable request at index 1 fails with -5. -/
def envFail1 : Env where
  set_voltage_rc := fun _ => 0
  enable_rc := fun i => if i = 1 then -5 else 0
  disable_rc := fun _ => 0

/-- Collaborator environment whose disable request at index 1 fails with -5. -/
def envDisFail1 : Env where
  set_voltage_rc := fun _ => 0
  enable_rc := fun _ => 0
  disable_rc := fun i => if i = 1 then -5 else 0

/-- A disabled 3-supply sequencer: supply 0 carries a voltage window
`[1000, 1100]` and delays 500/200 us, supplies 1 and 2 carry none. -/
def dataW : MultiRegulatorData where
  regulators := fun _ => true
  name := "rail"
  min_uV := fun i => if i = 0 then 1000 else 0
  max_uV := fun i => if i = 0 then 1100 else 0
  pon_delay_us := fun i => if i = 0 then 500 else 0
  poff_delay_us := fun i => if i = 0 then 200 else 0
  count := 3
  enabled := false

/-- `dataW` with the rail already enabled. -/
def dataWon : MultiRegulatorData := { dataW with enabled := true }

/-- A disabled 2-supply sequencer whose supply 0 failed resolution at probe
time: `regulators[0]` is NULL and its voltage/delay fields were left zeroed,
exactly as `multi_regulator_probe` records it. -/
def dataNull : MultiRegulatorData where
  regulators := fun i => i != 0
  name := "rail"
  min_uV := fun _ => 0
  max_uV := fun _ => 0
  pon_delay_us := fun _ => 0
  poff_delay_us := fun _ => 0
  count := 2
  enabled := false

/-- `dataNull` with the rail already enabled. -/
def dataNullOn : MultiRegulatorData := { dataNull with enabled := true }

/-- A disabled single-supply sequencer whose power-on delay is `2 ^ 31`
microseconds, the smallest value at which `2 * delay` overflows the C
`unsigned int` multiplication. -/
def dataBigDelay : MultiRegulatorData where
  regulators := fun _ => true
  name := "rail"
  min_uV := fun _ => 0
  max_uV := fun _ => 0
  pon_delay_us := fun _ => 2 ^ 31
  poff_delay_us := fun _ => 0
  count := 1
  enabled := false

lemma mem_sv_events {data : MultiRegulatorData} {i : Nat} {e : Event} :
    e ∈ sv_events data i ↔
      gated data i = true ∧
        e = Event.set_voltage i (data.regulators i) (data.min_uV i) (data.max_uV i) := by
  unfold sv_events
  by_cases h : gated data i <;> simp [h]

lemma mem_pon_sleep {data : MultiRegulatorData} {i : Nat} {e : Event} :
    e ∈ pon_sleep data i ↔
      data.pon_delay_us i ≠ 0 ∧
        e = Event.sleep (data.pon_delay_us i) (2 * data.pon_delay_us i % U32) := by
  unfold pon_sleep
  by_cases h : data.pon_delay_us i = 0 <;> simp [h]

lemma mem_poff_sleep {data : MultiRegulatorData} {i : Nat} {e : Event} :
    e ∈ poff_sleep data i ↔
      data.poff_delay_us i ≠ 0 ∧
        e = Event.sleep (data.poff_delay_us i) (2 * data.poff_delay_us i % U32) := by
  unfold poff_sleep
  by_cases h : data.poff_delay_us i = 0 <;> simp [h]

lemma step_ok_or_fails (data : MultiRegulatorData) (env : Env) (i : Nat) :
    step_ok data env i ∨ step_fails data env i := by
  unfold step_ok step_fails
  by_cases h1 : env.enable_rc i = 0 <;> by_cases h2 : env.set_voltage_rc i = 0 <;>
    cases h3 : gated data i <;> tauto

lemma enable_loop_ok {data : MultiRegulatorData} {env : Env} {i : Nat} (fuel : Nat)
    (h : step_ok data env i) :
    enable_loop data env i (fuel + 1) =
      (ok_step_events data i ++ (enable_loop data env (i + 1) fuel).1,
       (enable_loop data env (i + 1) fuel).2) := by
  obtain ⟨h1, h2⟩ := h
  have hc : (gated data i && (env.set_voltage_rc i != 0)) = false := by
    rcases h1 with h1 | h1 <;> simp [h1]
  simp [enable_loop, hc, h2, ok_step_events, List.append_assoc]

lemma enable_loop_fail {data : MultiRegulatorData} {env : Env} {i : Nat} (fuel : Nat)
    (h : step_fails data env i) :
    enable_loop data env i (fuel + 1) = (fail_events data env i, -22) := by
  by_cases hc : (gated data i && (env.set_voltage_rc i != 0)) = true
  · simp [enable_loop, fail_events, hc]
  · have h2 : env.enable_rc i ≠ 0 := by
      rcases h with ⟨hg, hs⟩ | h2
      · exact absurd (by simp [hg, hs]) hc
      · exact h2
    simp [enable_loop, fail_events, hc, h2]

lemma enable_loop_ok_run {data : MultiRegulatorData} {env : Env} :
    ∀ (k i fuel : Nat), (∀ j, i ≤ j → j < i + k → step_ok data env j) →
      enable_loop data env i (k + fuel) =
        ((List.range' i k).flatMap (ok_step_events data) ++
            (enable_loop data env (i + k) fuel).1,
         (enable_loop data env (i + k) fuel).2) := by
  intro k
  induction k with
  | zero => intro i fuel _; simp
  | succ k ih =>
    intro i fuel h
    have hstep : step_ok data env i := h i le_rfl (by omega)
    have hfuel : (k + 1) + fuel = (k + fuel) + 1 := by omega
    rw [hfuel, enable_loop_ok (k + fuel) hstep,
      ih (i + 1) fuel (fun j hj1 hj2 => h j (by omega) (by omega))]
    have hidx : i + (k + 1) = (i + 1) + k := by omega
    rw [hidx, List.range'_succ i k 1]
    simp [List.append_assoc]

lemma disable_loop_eq (data : MultiRegulatorData) :
    ∀ (fuel i : Nat),
      disable_loop data i fuel =
        (List.range' i fuel).flatMap
          (fun j => Event.disable j (data.regulators j) :: poff_sleep data j) := by
  intro fuel
  induction fuel with
  | zero => intro i; simp [disable_loop]
  | succ fuel ih =>
    intro i
    rw [List.range'_succ i fuel 1]
    simp only [disable_loop, ih (i + 1), List.flatMap_cons]
    simp

lemma mem_enable_loop {data : MultiRegulatorData} {env : Env} :
    ∀ (fuel i : Nat) {e : Event}, e ∈ (enable_loop data env i fuel).1 →
      ∃ j, i ≤ j ∧
        (e ∈ sv_events data j ∨ e = Event.enable j (data.regulators j) ∨
          e ∈ pon_sleep data j) := by
  intro fuel
  induction fuel with
  | zero => intro i e he; simp [enable_loop] at he
  | succ fuel ih =>
    intro i e he
    rcases step_ok_or_fails data env i with hok | hfail
    · rw [enable_loop_ok fuel hok] at he
      simp only [ok_step_events, List.append_assoc, List.mem_append,
        List.mem_singleton] at he
      rcases he with h | h | h | h
      · exact ⟨i, le_rfl, Or.inl h⟩
      · exact ⟨i, le_rfl, Or.inr (Or.inl h)⟩
      · exact ⟨i, le_rfl, Or.inr (Or.inr h)⟩
      · obtain ⟨j, hj, hc⟩ := ih (i + 1) h
        exact ⟨j, by omega, hc⟩
    · rw [enable_loop_fail fuel hfail] at he
      unfold fail_events at he
      split_ifs at he with hc
      · exact ⟨i, le_rfl, Or.inl he⟩
      · rcases List.mem_append.1 he with h | h
        · exact ⟨i, le_rfl, Or.inl h⟩
        · exact ⟨i, le_rfl, Or.inr (Or.inl (by simpa using h))⟩

lemma enable_loop_rc (data : MultiRegulatorData) (env : Env) :
    ∀ (fuel i : Nat),
      (enable_loop data env i fuel).2 = 0 ∨ (enable_loop data env i fuel).2 = -22 := by
  intro fuel
  induction fuel with
  | zero => intro i; simp [enable_loop]
  | succ fuel ih =>
    intro i
    rcases step_ok_or_fails data env i with hok | hfail
    · rw [enable_loop_ok fuel hok]
      simpa using ih (i + 1)
    · rw [enable_loop_fail fuel hfail]
      simp

lemma multi_regulator_enable_eq (data : MultiRegulatorData) (env : Env)
    (h : data.enabled = false) :
    multi_regulator_enable data env =
      if (enable_loop data env 0 data.count).2 = 0 then
        ({ data with enabled := true }, (enable_loop data env 0 data.count).1, 0)
      else
        (data, (enable_loop data env 0 data.count).1,
          (enable_loop data env 0 data.count).2) := by
  simp only [multi_regulator_enable, h]
  simp

lemma enable_trace_eq_loop (data : MultiRegulatorData) (env : Env)
    (h : data.enabled = false) :
    (multi_regulator_enable data env).2.1 = (enable_loop data env 0 data.count).1 := by
  rw [multi_regulator_enable_eq data env h]
  split_ifs <;> rfl

lemma multi_regulator_disable_eq (data : MultiRegulatorData) (env : Env)
    (h : data.enabled = true) :
    multi_regulator_disable data env =
      ({ data with enabled := false }, disable_loop data 0 data.count, 0) := by
  simp [multi_regulator_disable, h]

lemma sv_self_mem_enable_loop {data : MultiRegulatorData} {env : Env} {i : Nat}
    (fuel : Nat) (hg : gated data i = true) :
    Event.set_voltage i (data.regulators i) (data.min_uV i) (data.max_uV i) ∈
      (enable_loop data env i (fuel + 1)).1 := by
  have hsv : Event.set_voltage i (data.regulators i) (data.min_uV i) (data.max_uV i) ∈
      sv_events data i := mem_sv_events.2 ⟨hg, rfl⟩
  rcases step_ok_or_fails data env i with hok | hfail
  · rw [enable_loop_ok fuel hok]
    simp only [ok_step_events, List.append_assoc, List.mem_append]
    exact Or.inl hsv
  · rw [enable_loop_fail fuel hfail]
    unfold fail_events
    split_ifs with hc
    · exact hsv
    · exact List.mem_append.2 (Or.inl hsv)

/-- C4: redundant calls are idempotent no-ops: enable() on an already
enabled sequencer and disable() on an already disabled sequencer return
success (0), issue no collaborator requests, and leave the state (the
`enabled` flag included) unchanged. -/
theorem redundant_calls_noop (dOn dOff : MultiRegulatorData) (env : Env)
    (hon : dOn.enabled = true) (hoff : dOff.enabled = false) :
    multi_regulator_enable dOn env = (dOn, [], 0) ∧
    multi_regulator_disable dOff env = (dOff, [], 0) := by
  constructor
  · simp [multi_regulator_enable, hon]
  · simp [multi_regulator_disable, hoff]

/-- Witness for C4 at a concrete enabled and disabled 3-supply sequencer. -/
theorem redundant_calls_noop_witness :
    dataWon.enabled = true ∧ dataW.enabled = false ∧
    multi_regulator_enable dataWon envOk = (dataWon, [], 0) ∧
    multi_regulator_disable dataW envOk = (dataW, [], 0) :=
  ⟨rfl, rfl, (redundant_calls_noop dataWon dataW envOk rfl rfl).1,
    (redundant_calls_noop dataWon dataW envOk rfl rfl).2⟩

/-- C9: is_enabled() returns the current `enabled` flag (as the C int the
source returns) and returns the default disabled value 0 when the sequencer
instance itself is NULL; being a pure total Lean function, it modifies no
state and never fails. -/
theorem is_enabled_accessor (d : MultiRegulatorData) :
    multi_regulator_is_enabled (some d) = (if d.enabled then 1 else 0) ∧
    multi_regulator_is_enabled none = 0 :=
  ⟨rfl, rfl⟩

/-- C8: whatever step fails and at whatever index, enable() returns either
success (0) or the single generic error `-EINVAL = -22`; no other return
value is possible, so voltage-set and enable failures are not distinguished
at the return-code level. -/
theorem enable_error_collapsed (data : MultiRegulatorData) (env : Env) :
    (multi_regulator_enable data env).2.2 = 0 ∨
    (multi_regulator_enable data env).2.2 = -22 := by
  by_cases h : data.enabled = true
  · left
    simp [multi_regulator_enable, h]
  · have h' : data.enabled = false := by simpa using h
    rw [multi_regulator_enable_eq data env h']
    split_ifs with h2
    · left
      rfl
    · rcases enable_loop_rc data env data.count 0 with h3 | h3
      · exact absurd h3 h2
      · right
        simpa using h3

/-- C10: enable() and disable() modify at most the `enabled` flag: the
handle table, the voltage windows, the delay tables, the count and the name
of the resulting state equal those of the input state on every path
(is_enabled() returns only an int and touches no state by its type). -/
theorem ops_frame_invariant (data : MultiRegulatorData) (env : Env) :
    ((multi_regulator_enable data env).1.regulators = data.regulators ∧
      (multi_regulator_enable data env).1.name = data.name ∧
      (multi_regulator_enable data env).1.min_uV = data.min_uV ∧
      (multi_regulator_enable data env).1.max_uV = data.max_uV ∧
      (multi_regulator_enable data env).1.pon_delay_us = data.pon_delay_us ∧
      (multi_regulator_enable data env).1.poff_delay_us = data.poff_delay_us ∧
      (multi_regulator_enable data env).1.count = data.count) ∧
    ((multi_regulator_disable data env).1.regulators = data.regulators ∧
      (multi_regulator_disable data env).1.name = data.name ∧
      (multi_regulator_disable data env).1.min_uV = data.min_uV ∧
      (multi_regulator_disable data env).1.max_uV = data.max_uV ∧
      (multi_regulator_disable data env).1.pon_delay_us = data.pon_delay_us ∧
      (multi_regulator_disable data env).1.poff_delay_us = data.poff_delay_us ∧
      (multi_regulator_disable data env).1.count = data.count) := by
  constructor
  · by_cases h : data.enabled = true
    · simp [multi_regulator_enable, h]
    · rw [multi_regulator_enable_eq data env (by simpa using h)]
      split_ifs <;> simp
  · by_cases h : data.enabled = true
    · rw [multi_regulator_disable_eq data env h]
      simp
    · have h' : data.enabled = false := by simpa using h
      simp [multi_regulator_disable, h']

/-- C2: disable() on an enabled sequencer is best-effort and infallible:
whatever the per-index disable results are, the disable request is issued
for every index, the `enabled` flag is cleared, the return value is 0, and
the whole outcome does not depend on the collaborator results at all. -/
theorem disable_best_effort (data : MultiRegulatorData) (env : Env)
    (hon : data.enabled = true) :
    (multi_regulator_disable data env).1.enabled = false ∧
    (multi_regulator_disable data env).2.2 = 0 ∧
    (∀ j, j < data.count →
      Event.disable j (data.regulators j) ∈ (multi_regulator_disable data env).2.1) ∧
    (∀ env' : Env, multi_regulator_disable data env' = multi_regulator_disable data env) := by
  have hres := multi_regulator_disable_eq data env hon
  refine ⟨by rw [hres], by rw [hres], ?_, fun env' => rfl⟩
  intro j hj
  rw [hres]
  show Event.disable j (data.regulators j) ∈ disable_loop data 0 data.count
  rw [disable_loop_eq data data.count 0]
  refine List.mem_flatMap.2 ⟨j, ?_, ?_⟩
  · rw [List.mem_range'_1]
    omega
  · simp

/-- Witness for C2: a 3-supply enabled sequencer whose disable request at
index 1 fails; the disable request is still issued at every index, the flag
clears and the call returns 0 whatever the environment. -/
theorem disable_best_effort_witness :
    dataWon.enabled = true ∧
    ((multi_regulator_disable dataWon envDisFail1).1.enabled = false ∧
      (multi_regulator_disable dataWon envDisFail1).2.2 = 0 ∧
      (∀ j, j < dataWon.count → Event.disable j (dataWon.regulators j) ∈
        (multi_regulator_disable dataWon envDisFail1).2.1) ∧
      (∀ env' : Env,
        multi_regulator_disable dataWon env' = multi_regulator_disable dataWon envDisFail1)) :=
  ⟨rfl, disable_best_effort dataWon envDisFail1 rfl⟩

/-- C1: enable() is fail-fast with no rollback: on a disabled sequencer, if
the steps before index `i` succeed and the set-voltage or enable request at
index `i` fails, then enable() returns the failure `-EINVAL = -22`, the
state (the `enabled` flag included) is unchanged, no disable request is
issued, no set-voltage or enable request is issued for any index above `i`,
every sleep issued came from a successfully enabled index below `i`, and
the supplies below `i` did receive their enable request (they stay on). -/
theorem enable_fail_fast (data : MultiRegulatorData) (env : Env) (i : Nat)
    (hoff : data.enabled = false) (hi : i < data.count)
    (hok : ∀ j, j < i → step_ok data env j) (hfail : step_fails data env i) :
    (multi_regulator_enable data env).1 = data ∧
    (multi_regulator_enable data env).2.2 = -22 ∧
    (∀ j h, Event.disable j h ∉ (multi_regulator_enable data env).2.1) ∧
    (∀ j, i < j → ∀ h, Event.enable j h ∉ (multi_regulator_enable data env).2.1) ∧
    (∀ j, i < j → ∀ h a b, Event.set_voltage j h a b ∉ (multi_regulator_enable data env).2.1) ∧
    (∀ lo hi', Event.sleep lo hi' ∈ (multi_regulator_enable data env).2.1 →
      ∃ j, j < i ∧ data.pon_delay_us j ≠ 0 ∧ lo = data.pon_delay_us j ∧
        hi' = 2 * data.pon_delay_us j % U32) ∧
    (∀ j, j < i → Event.enable j (data.regulators j) ∈ (multi_regulator_enable data env).2.1) := by
  have hfuel : data.count = i + ((data.count - i - 1) + 1) := by omega
  have hloop : enable_loop data env 0 data.count =
      ((List.range' 0 i).flatMap (ok_step_events data) ++ fail_events data env i, -22) := by
    rw [hfuel, enable_loop_ok_run i 0 ((data.count - i - 1) + 1)
        (fun j hj1 hj2 => hok j (by omega)),
      Nat.zero_add, enable_loop_fail (data.count - i - 1) hfail]
  have hres : multi_regulator_enable data env =
      (data, (List.range' 0 i).flatMap (ok_step_events data) ++ fail_events data env i, -22) := by
    rw [multi_regulator_enable_eq data env hoff, hloop]
    norm_num
  have hmemall : ∀ e, e ∈ (multi_regulator_enable data env).2.1 →
      ∃ j, (j ≤ i ∧ (e ∈ sv_events data j ∨ e = Event.enable j (data.regulators j))) ∨
        (j < i ∧ e ∈ pon_sleep data j) := by
    intro e he
    rw [hres] at he
    rcases List.mem_append.1 he with h | h
    · obtain ⟨j, hj, hmem⟩ := List.mem_flatMap.1 h
      have hj' : j < i := by
        have := List.mem_range'_1.1 hj
        omega
      simp only [ok_step_events, List.append_assoc, List.mem_append,
        List.mem_singleton] at hmem
      rcases hmem with h' | h' | h'
      · exact ⟨j, Or.inl ⟨le_of_lt hj', Or.inl h'⟩⟩
      · exact ⟨j, Or.inl ⟨le_of_lt hj', Or.inr h'⟩⟩
      · exact ⟨j, Or.inr ⟨hj', h'⟩⟩
    · unfold fail_events at h
      split_ifs at h with hc
      · exact ⟨i, Or.inl ⟨le_rfl, Or.inl h⟩⟩
      · rcases List.mem_append.1 h with h' | h'
        · exact ⟨i, Or.inl ⟨le_rfl, Or.inl h'⟩⟩
        · exact ⟨i, Or.inl ⟨le_rfl, Or.inr (by simpa using h')⟩⟩
  refine ⟨by rw [hres], by rw [hres], ?_, ?_, ?_, ?_, ?_⟩
  · intro j h hmem
    obtain ⟨j', hcase⟩ := hmemall _ hmem
    rcases hcase with ⟨hj', hc | hc⟩ | ⟨hj', hc⟩
    · have := (mem_sv_events.1 hc).2
      simp at this
    · simp at hc
    · have := (mem_pon_sleep.1 hc).2
      simp at this
  · intro j hij h hmem
    obtain ⟨j', hcase⟩ := hmemall _ hmem
    rcases hcase with ⟨hj', hc | hc⟩ | ⟨hj', hc⟩
    · have := (mem_sv_events.1 hc).2
      simp at this
    · injection hc with h1 h2
      omega
    · have := (mem_pon_sleep.1 hc).2
      simp at this
  · intro j hij h a b hmem
    obtain ⟨j', hcase⟩ := hmemall _ hmem
    rcases hcase with ⟨hj', hc | hc⟩ | ⟨hj', hc⟩
    · have heq := (mem_sv_events.1 hc).2
      injection heq with h1 h2 h3 h4
      omega
    · simp at hc
    · have := (mem_pon_sleep.1 hc).2
      simp at this
  · intro lo hi' hmem
    obtain ⟨j', hcase⟩ := hmemall _ hmem
    rcases hcase with ⟨hj', hc | hc⟩ | ⟨hj', hc⟩
    · have := (mem_sv_events.1 hc).2
      simp at this
    · simp at hc
    · obtain ⟨hne, heq⟩ := mem_pon_sleep.1 hc
      injection heq with h1 h2
      exact ⟨j', hj', hne, h1, h2⟩
  · intro j hj
    rw [hres]
    refine List.mem_append.2 (Or.inl (List.mem_flatMap.2 ⟨j, ?_, ?_⟩))
    · rw [List.mem_range'_1]
      omega
    · simp [ok_step_events]

/-- Witness for C1: 3 supplies, the enable request at index 1 fails; the
instantiated hypotheses and conclusion of `enable_fail_fast`. -/
theorem enable_fail_fast_witness :
    dataW.enabled = false ∧ 1 < dataW.count ∧
    (∀ j, j < 1 → step_ok dataW envFail1 j) ∧ step_fails dataW envFail1 1 ∧
    ((multi_regulator_enable dataW envFail1).1 = dataW ∧
      (multi_regulator_enable dataW envFail1).2.2 = -22 ∧
      (∀ j h, Event.disable j h ∉ (multi_regulator_enable dataW envFail1).2.1) ∧
      (∀ j, 1 < j → ∀ h, Event.enable j h ∉ (multi_regulator_enable dataW envFail1).2.1) ∧
      (∀ j, 1 < j → ∀ h a b,
        Event.set_voltage j h a b ∉ (multi_regulator_enable dataW envFail1).2.1) ∧
      (∀ lo hi', Event.sleep lo hi' ∈ (multi_regulator_enable dataW envFail1).2.1 →
        ∃ j, j < 1 ∧ dataW.pon_delay_us j ≠ 0 ∧ lo = dataW.pon_delay_us j ∧
          hi' = 2 * dataW.pon_delay_us j % U32) ∧
      (∀ j, j < 1 →
        Event.enable j (dataW.regulators j) ∈ (multi_regulator_enable dataW envFail1).2.1)) :=
  ⟨rfl, by decide, by decide, by decide,
    enable_fail_fast dataW envFail1 1 rfl (by decide) (by decide) (by decide)⟩

/-- C5: ascending sequencing order: on a fully successful run, the indices
of the enable requests enable() issues are exactly `0, 1, ..., count - 1`
in that order, the indices of its set-voltage requests are the gated
indices in that same ascending order, and the indices of the disable
requests disable() issues are exactly `0, 1, ..., count - 1` in that order
(same ascending order, not reversed). -/
theorem calls_ascending_order (dOff dOn : MultiRegulatorData) (env : Env)
    (hoff : dOff.enabled = false) (hon : dOn.enabled = true)
    (hok : ∀ j, j < dOff.count → step_ok dOff env j) :
    (multi_regulator_enable dOff env).2.1.filterMap en_idx = List.range dOff.count ∧
    (multi_regulator_enable dOff env).2.1.filterMap sv_idx =
      (List.range dOff.count).filter (fun j => gated dOff j) ∧
    (multi_regulator_disable dOn env).2.1.filterMap dis_idx = List.range dOn.count := by
  have hfm : ∀ (f : Event → Option Nat) (l : List Nat) (g : Nat → List Event),
      (l.flatMap g).filterMap f = l.flatMap fun a => (g a).filterMap f := by
    intro f l g
    induction l with
    | nil => simp
    | cons a l ih => simp [ih]
  have hloop : enable_loop dOff env 0 dOff.count =
      ((List.range' 0 dOff.count).flatMap (ok_step_events dOff), 0) := by
    have h := enable_loop_ok_run dOff.count 0 0 (fun j hj1 hj2 => hok j (by omega))
    simpa [enable_loop] using h
  have hres : (multi_regulator_enable dOff env).2.1 =
      (List.range' 0 dOff.count).flatMap (ok_step_events dOff) := by
    rw [enable_trace_eq_loop dOff env hoff, hloop]
  refine ⟨?_, ?_, ?_⟩
  · have hen : ∀ j, (ok_step_events dOff j).filterMap en_idx = [j] := by
      intro j
      unfold ok_step_events sv_events pon_sleep
      split_ifs <;> simp [en_idx]
    rw [hres, hfm en_idx]
    simp only [hen]
    rw [List.range_eq_range']
    simp
  · have hsv : ∀ j, (ok_step_events dOff j).filterMap sv_idx =
        if gated dOff j then [j] else [] := by
      intro j
      unfold ok_step_events sv_events pon_sleep
      split_ifs <;> simp [sv_idx]
    have hfi : ∀ (p : Nat → Bool) (l : List Nat),
        (l.flatMap fun x => if p x then [x] else []) = l.filter p := by
      intro p l
      induction l with
      | nil => simp
      | cons a l ih => by_cases h : p a <;> simp [h, ih]
    rw [hres, hfm sv_idx]
    simp only [hsv]
    rw [List.range_eq_range']
    exact hfi _ _
  · have hdis : ∀ j,
        ((Event.disable j (dOn.regulators j) :: poff_sleep dOn j).filterMap dis_idx) = [j] := by
      intro j
      unfold poff_sleep
      split_ifs <;> simp [dis_idx]
    rw [multi_regulator_disable_eq dOn env hon]
    show (disable_loop dOn 0 dOn.count).filterMap dis_idx = List.range dOn.count
    rw [disable_loop_eq dOn dOn.count 0, hfm dis_idx]
    simp only [hdis]
    rw [List.range_eq_range']
    simp

/-- Witness for C5 at the concrete 3-supply sequencer with an all-success
environment. -/
theorem calls_ascending_order_witness :
    dataW.enabled = false ∧ dataWon.enabled = true ∧
    (∀ j, j < dataW.count → step_ok dataW envOk j) ∧
    ((multi_regulator_enable dataW envOk).2.1.filterMap en_idx = List.range dataW.count ∧
      (multi_regulator_enable dataW envOk).2.1.filterMap sv_idx =
        (List.range dataW.count).filter (fun j => gated dataW j) ∧
      (multi_regulator_disable dataWon envOk).2.1.filterMap dis_idx =
        List.range dataWon.count) :=
  ⟨rfl, rfl, by decide, calls_ascending_order dataW dataWon envOk rfl rfl (by decide)⟩

/-- C6: voltage-set gating: once the enable loop reaches index `i` (the
steps below `i` succeeded), the set-voltage request with window
`[min_uV i, max_uV i]` is issued exactly when `min_uV i` or `max_uV i` is
nonzero; and when both are zero, no set-voltage request for index `i` ever
appears in the trace. -/
theorem set_voltage_gating (data : MultiRegulatorData) (env : Env) (i : Nat)
    (hoff : data.enabled = false) (hi : i < data.count)
    (hok : ∀ j, j < i → step_ok data env j) :
    ((data.min_uV i ≠ 0 ∨ data.max_uV i ≠ 0) →
      Event.set_voltage i (data.regulators i) (data.min_uV i) (data.max_uV i) ∈
        (multi_regulator_enable data env).2.1) ∧
    (data.min_uV i = 0 → data.max_uV i = 0 →
      ∀ h a b, Event.set_voltage i h a b ∉ (multi_regulator_enable data env).2.1) := by
  have htr := enable_trace_eq_loop data env hoff
  constructor
  · intro hnz
    have hg : gated data i = true := by
      rcases hnz with h | h <;> simp [gated, h]
    have hfuel : data.count = i + ((data.count - i - 1) + 1) := by omega
    rw [htr, hfuel, enable_loop_ok_run i 0 ((data.count - i - 1) + 1)
        (fun j hj1 hj2 => hok j (by omega)), Nat.zero_add]
    exact List.mem_append.2 (Or.inr (sv_self_mem_enable_loop (data.count - i - 1) hg))
  · intro hmin hmax h a b hmem
    have hg : gated data i = false := by
      simp [gated, hmin, hmax]
    rw [htr] at hmem
    obtain ⟨j, hj, hc | hc | hc⟩ := mem_enable_loop data.count 0 hmem
    · obtain ⟨hgj, heq⟩ := mem_sv_events.1 hc
      injection heq with h1 h2 h3 h4
      rw [← h1, hg] at hgj
      simp at hgj
    · simp at hc
    · have := (mem_pon_sleep.1 hc).2
      simp at this

/-- Witness for C6 at index 0 of the concrete sequencer, whose window is
`[1000, 1100]`, and at index 1, whose window is `[0, 0]`. -/
theorem set_voltage_gating_witness :
    dataW.enabled = false ∧ 0 < dataW.count ∧ (∀ j, j < 0 → step_ok dataW envOk j) ∧
    (((dataW.min_uV 0 ≠ 0 ∨ dataW.max_uV 0 ≠ 0) →
      Event.set_voltage 0 (dataW.regulators 0) (dataW.min_uV 0) (dataW.max_uV 0) ∈
        (multi_regulator_enable dataW envOk).2.1) ∧
    (dataW.min_uV 0 = 0 → dataW.max_uV 0 = 0 →
      ∀ h a b, Event.set_voltage 0 h a b ∉ (multi_regulator_enable dataW envOk).2.1)) :=
  ⟨rfl, by decide, by decide, set_voltage_gating dataW envOk 0 rfl (by decide) (by decide)⟩

/-- C7 (amended): delay semantics with the 32-bit upper bound: once the
enable loop has successfully enabled index `i`, a sleep request with bounds
`[pon_delay_us i, (2 * pon_delay_us i) mod 2^32]` is issued exactly when
the delay is nonzero, and every sleep request enable() ever issues has this
shape for some index with nonzero delay (so a zero delay issues no sleep);
symmetrically for disable() with the power-off delays.  The upper bound
equals `2 * delay` whenever `delay < 2^31`. -/
theorem sleep_request_bounds (dOff dOn : MultiRegulatorData) (env : Env) (i : Nat)
    (hoff : dOff.enabled = false) (hon : dOn.enabled = true)
    (hiE : i < dOff.count) (hokE : ∀ j, j ≤ i → step_ok dOff env j)
    (hiD : i < dOn.count) :
    (dOff.pon_delay_us i ≠ 0 →
      Event.sleep (dOff.pon_delay_us i) (2 * dOff.pon_delay_us i % U32) ∈
        (multi_regulator_enable dOff env).2.1) ∧
    (∀ lo hi', Event.sleep lo hi' ∈ (multi_regulator_enable dOff env).2.1 →
      ∃ j, dOff.pon_delay_us j ≠ 0 ∧ lo = dOff.pon_delay_us j ∧
        hi' = 2 * dOff.pon_delay_us j % U32) ∧
    (dOn.poff_delay_us i ≠ 0 →
      Event.sleep (dOn.poff_delay_us i) (2 * dOn.poff_delay_us i % U32) ∈
        (multi_regulator_disable dOn env).2.1) ∧
    (∀ lo hi', Event.sleep lo hi' ∈ (multi_regulator_disable dOn env).2.1 →
      ∃ j, dOn.poff_delay_us j ≠ 0 ∧ lo = dOn.poff_delay_us j ∧
        hi' = 2 * dOn.poff_delay_us j % U32) := by
  have htr := enable_trace_eq_loop dOff env hoff
  have hdtr : (multi_regulator_disable dOn env).2.1 = disable_loop dOn 0 dOn.count := by
    rw [multi_regulator_disable_eq dOn env hon]
  refine ⟨?_, ?_, ?_, ?_⟩
  · intro hne
    have hfuel : dOff.count = (i + 1) + (dOff.count - i - 1) := by omega
    rw [htr, hfuel, enable_loop_ok_run (i + 1) 0 (dOff.count - i - 1)
        (fun j hj1 hj2 => hokE j (by omega))]
    refine List.mem_append.2 (Or.inl (List.mem_flatMap.2 ⟨i, ?_, ?_⟩))
    · rw [List.mem_range'_1]
      omega
    · simp only [ok_step_events, List.append_assoc, List.mem_append]
      exact Or.inr (Or.inr (mem_pon_sleep.2 ⟨hne, rfl⟩))
  · intro lo hi' hmem
    rw [htr] at hmem
    obtain ⟨j, hj, hc | hc | hc⟩ := mem_enable_loop dOff.count 0 hmem
    · have := (mem_sv_events.1 hc).2
      simp at this
    · simp at hc
    · obtain ⟨hne, heq⟩ := mem_pon_sleep.1 hc
      injection heq with h1 h2
      exact ⟨j, hne, h1, h2⟩
  · intro hne
    rw [hdtr, disable_loop_eq dOn dOn.count 0]
    refine List.mem_flatMap.2 ⟨i, ?_, ?_⟩
    · rw [List.mem_range'_1]
      omega
    · exact List.mem_cons.2 (Or.inr (mem_poff_sleep.2 ⟨hne, rfl⟩))
  · intro lo hi' hmem
    rw [hdtr, disable_loop_eq dOn dOn.count 0] at hmem
    obtain ⟨j, hj, hc⟩ := List.mem_flatMap.1 hmem
    rcases List.mem_cons.1 hc with h | h
    · simp at h
    · obtain ⟨hne, heq⟩ := mem_poff_sleep.1 h
      injection heq with h1 h2
      exact ⟨j, hne, h1, h2⟩

/-- Witness for the amended C7 at index 0 of the concrete sequencer
(power-on delay 500, power-off delay 200, both below `2 ^ 31`). -/
theorem sleep_request_bounds_witness :
    dataW.enabled = false ∧ dataWon.enabled = true ∧ 0 < dataW.count ∧
    (∀ j, j ≤ 0 → step_ok dataW envOk j) ∧ 0 < dataWon.count ∧
    ((dataW.pon_delay_us 0 ≠ 0 →
      Event.sleep (dataW.pon_delay_us 0) (2 * dataW.pon_delay_us 0 % U32) ∈
        (multi_regulator_enable dataW envOk).2.1) ∧
    (∀ lo hi', Event.sleep lo hi' ∈ (multi_regulator_enable dataW envOk).2.1 →
      ∃ j, dataW.pon_delay_us j ≠ 0 ∧ lo = dataW.pon_delay_us j ∧
        hi' = 2 * dataW.pon_delay_us j % U32) ∧
    (dataWon.poff_delay_us 0 ≠ 0 →
      Event.sleep (dataWon.poff_delay_us 0) (2 * dataWon.poff_delay_us 0 % U32) ∈
        (multi_regulator_disable dataWon envOk).2.1) ∧
    (∀ lo hi', Event.sleep lo hi' ∈ (multi_regulator_disable dataWon envOk).2.1 →
      ∃ j, dataWon.poff_delay_us j ≠ 0 ∧ lo = dataWon.poff_delay_us j ∧
        hi' = 2 * dataWon.poff_delay_us j % U32)) :=
  ⟨rfl, rfl, by decide, by decide, by decide,
    sleep_request_bounds dataW dataWon envOk 0 rfl rfl (by decide) (by decide) (by decide)⟩

/-- Counterexample to C7 as stated: with a power-on delay of `2 ^ 31`
microseconds the code issues the sleep request `usleep_range(2^31, 0)` —
the upper bound `2 * delay` wrapped to 0 in the 32-bit multiplication — and
no sleep request with upper bound `2 * delay = 2 ^ 32` is issued. -/
theorem sleep_overflow_cex :
    dataBigDelay.enabled = false ∧
    dataBigDelay.pon_delay_us 0 = 2 ^ 31 ∧
    Event.sleep (dataBigDelay.pon_delay_us 0) (2 * dataBigDelay.pon_delay_us 0) ∉
      (multi_regulator_enable dataBigDelay envOk).2.1 ∧
    Event.sleep (2 ^ 31) 0 ∈ (multi_regulator_enable dataBigDelay envOk).2.1 := by
  decide

/-- C3 is violated by the code: for a sequencer whose supply 0 failed
resolution (`regulators[0] = NULL`, voltage and delay fields zeroed, as
`multi_regulator_probe` records it), enable() still issues the enable
request for index 0 — passing the NULL handle — and disable() still issues
the disable request for index 0, instead of silently skipping the index as
the claim states. -/
theorem null_handle_still_called :
    dataNull.regulators 0 = false ∧
    dataNull.enabled = false ∧ dataNullOn.enabled = true ∧
    Event.enable 0 false ∈ (multi_regulator_enable dataNull envOk).2.1 ∧
    Event.disable 0 false ∈ (multi_regulator_disable dataNullOn envOk).2.1 := by
  decide

end MultiReg
